import Mathlib

/-!
Shallow embedding of the cold_mailer rate-limited send pipeline
(`src/cold_mailer/rate_limiter.py`, `src/cold_mailer/mailer.py`,
`src/cold_mailer/recruiter_manager.py`, `src/cold_mailer/template_engine.py`).

Modelling conventions:
* Wall-clock instants are integers counting seconds on the local timeline;
  a calendar date is the floor-division day index of such an instant
  (`Int.fdiv t 86400`), so two instants fall on the same local calendar
  date exactly when their day indices agree.
* The current instant `now` is passed explicitly to every operation that
  reads the clock (`datetime.now()` in the source).
* File-system and SMTP effects are modelled by explicit state values and
  outcome parameters: the persisted ledger file is a `LedgerFile`, an SMTP
  session outcome is a `SmtpResult`, and a ledger write is given an
  `Option String` outcome (`none` = the write completed, `some msg` = the
  write raised an error whose text is `msg`).
* Python exceptions become `Except` values carrying the exception message.
-/

/-- One entry of the sent-email ledger, mirroring the dict built in
`RateLimiter.record_sent`. -/
structure SentRecord where
  timestamp : Int
  recruiter_id : String
  email : String
  template : String
  subject : String
deriving DecidableEq, Repr

/-- The rate-limit section of the configuration (`RateLimitSettings` in
`config.py`, defaults `emails_per_hour=20`, `delay_between_emails=30`,
`max_emails_per_day=100`). -/
structure RateLimitSettings where
  emails_per_hour : Nat
  delay_between_emails : Nat
  max_emails_per_day : Nat
deriving DecidableEq, Repr

/-- Day index of an instant: both occurrences of `.date()` comparisons in the
source reduce to equality of this floor-division day index. -/
def dateOf (t : Int) : Int := Int.fdiv t 86400

/-- `RateLimiter._get_emails_in_window`: the records whose timestamp is
strictly after `now - window`. -/
def get_emails_in_window (log : List SentRecord) (now window : Int) : List SentRecord :=
  log.filter fun e => now - window < e.timestamp

/-- `RateLimiter.get_emails_last_hour`: count of records in the trailing
one-hour window. -/
def get_emails_last_hour (log : List SentRecord) (now : Int) : Nat :=
  (get_emails_in_window log now 3600).length

/-- `RateLimiter.get_emails_today`: count of records on today's local
calendar date. -/
def get_emails_today (log : List SentRecord) (now : Int) : Nat :=
  (log.filter fun e => dateOf e.timestamp = dateOf now).length

/-- `RateLimiter.can_send`: daily check first, then hourly, else OK. -/
def can_send (cfg : RateLimitSettings) (log : List SentRecord) (now : Int) :
    Bool × String :=
  let hourly_limit := cfg.emails_per_hour
  let daily_limit := cfg.max_emails_per_day
  let emails_last_hour := get_emails_last_hour log now
  let emails_today := get_emails_today log now
  if emails_today ≥ daily_limit then
    (false, "Daily limit reached (" ++ toString emails_today ++ "/" ++ toString daily_limit ++ ")")
  else if emails_last_hour ≥ hourly_limit then
    (false, "Hourly limit reached (" ++ toString emails_last_hour ++ "/" ++ toString hourly_limit ++ ")")
  else
    (true, "OK")

/-- `RateLimiter.check_rate_limit`: raises `RateLimitError` when `can_send`
disallows. -/
def check_rate_limit (cfg : RateLimitSettings) (log : List SentRecord) (now : Int) :
    Except String Unit :=
  match can_send cfg log now with
  | (true, _) => .ok ()
  | (false, reason) => .error ("Rate limit exceeded: " ++ reason)

/-- `RateLimiter.get_wait_time`: seconds until the next send can go out. -/
def get_wait_time (cfg : RateLimitSettings) (log : List SentRecord) (now : Int) : Int :=
  if get_emails_today log now ≥ cfg.max_emails_per_day then
    dateOf now * 86400 + 86400 - now
  else if get_emails_last_hour log now ≥ cfg.emails_per_hour then
    let oldest_in_window :=
      (((get_emails_in_window log now 3600).map fun e => e.timestamp).min?).getD now
    max 0 (oldest_in_window + 3600 - now)
  else
    0

/-- The persisted ledger file (`sent_log.json`) as the loader observes it:
missing, unreadable (invalid JSON or any read error), or a parsed JSON
document in which the `sent_emails` key may be present or absent. -/
inductive LedgerFile where
  | absent : LedgerFile
  | unreadable : LedgerFile
  | parsed : Option (List SentRecord) → LedgerFile
deriving DecidableEq, Repr

/-- `RateLimiter._load_sent_log`: a missing file, an unreadable file and a
document without the `sent_emails` key all load as the empty list
(`data.get("sent_emails", [])` under a catch-all `except`). -/
def load_sent_log : LedgerFile → List SentRecord
  | .absent => []
  | .unreadable => []
  | .parsed none => []
  | .parsed (some records) => records

/-- `RateLimiter._save_sent_log`: rewrites the whole file as a document whose
`sent_emails` key holds the full in-memory sequence. -/
def save_sent_log (records : List SentRecord) : LedgerFile :=
  .parsed (some records)

/-- In-memory ledger sequence paired with the durable file it was last
synchronised with. -/
structure LedgerState where
  mem : List SentRecord
  disk : LedgerFile
deriving DecidableEq, Repr

/-- `RateLimiter.record_sent`: builds the record, appends it to the in-memory
sequence, then saves.  `saveOutcome` is the write's outcome: `none` means the
write completed, `some msg` means it raised with message `msg`, in which case
the file keeps its previous contents while the append stays in memory. -/
def record_sent (st : LedgerState) (now : Int)
    (rid email tmpl subj : String) (saveOutcome : Option String) :
    LedgerState × Except String Unit :=
  let record : SentRecord :=
    { timestamp := now, recruiter_id := rid, email := email,
      template := tmpl, subject := subj }
  let mem := st.mem ++ [record]
  match saveOutcome with
  | none => ({ mem := mem, disk := save_sent_log mem }, .ok ())
  | some msg => ({ mem := mem, disk := st.disk }, .error msg)

/-- Repeated successful `record_sent` appends, used to phrase the
round-trip property over a whole batch of records. -/
def record_all (st : LedgerState) : List SentRecord → LedgerState
  | [] => st
  | r :: rs =>
      record_all
        (record_sent st r.timestamp r.recruiter_id r.email r.template r.subject none).1
        rs

/-- A contact (`Recruiter` in `recruiter_manager.py`), restricted to the
fields the send pipeline reads or writes. -/
structure Recruiter where
  id : String
  email : String
  status : String
  last_contacted : Option Int
deriving DecidableEq, Repr

/-- `RecruiterManager.mark_sent` via `update`: the contact with the given id
gets `status="sent"` and `last_contacted=now` in one combined update. -/
def mark_sent (contacts : List Recruiter) (id : String) (now : Int) : List Recruiter :=
  contacts.map fun r =>
    if r.id = id then { r with status := "sent", last_contacted := some now } else r

/-- `RecruiterManager.get_pending`: the contacts whose status is `pending`. -/
def get_pending (contacts : List Recruiter) : List Recruiter :=
  contacts.filter fun r => r.status = "pending"

/-- The 60-character `=` separator line of `TemplateEngine.render_preview`. -/
def previewSep : String := String.mk (List.replicate 60 '=')

/-- `TemplateEngine.render_preview` after its final `.strip()`: the leading
and trailing newline of the f-string are removed, everything else is kept
verbatim. -/
def render_preview (email subject body : String) : String :=
  previewSep ++ "\nTo: " ++ email ++ "\nSubject: " ++ subject ++ "\n" ++ previewSep
    ++ "\n\n" ++ body ++ "\n\n" ++ previewSep

/-- Exception kinds `Mailer.send_email` can raise, each carrying the exact
message string the source formats (`RateLimitError`, `TemplateError`,
`SMTPConnectionError`, `EmailError`). -/
inductive MailError where
  | rateLimit : String → MailError
  | templateError : String → MailError
  | smtpConnection : String → MailError
  | emailError : String → MailError
deriving DecidableEq, Repr

/-- `str(e)` on a raised exception: its message. -/
def MailError.message : MailError → String
  | .rateLimit m => m
  | .templateError m => m
  | .smtpConnection m => m
  | .emailError m => m

/-- Outcome of the SMTP session (connect, `starttls`, `login`,
`send_message`), matching the except-clauses of `Mailer.send_email`:
delivery, `SMTPAuthenticationError`, `SMTPRecipientsRefused`, another
`SMTPException`, or any other exception. -/
inductive SmtpResult where
  | delivered : SmtpResult
  | authFailed : SmtpResult
  | recipientsRefused : SmtpResult
  | smtpError : String → SmtpResult
  | otherError : String → SmtpResult
deriving DecidableEq, Repr

/-- The configuration slice `Mailer` reads: rate limits, Gmail credentials
from the environment, and the default template name. -/
structure MailerConfig where
  rate_limit : RateLimitSettings
  gmail_email : String
  gmail_app_password : String
  default_template : String
deriving DecidableEq, Repr

/-- The mutable state `Mailer.send_email` can touch: the ledger (in-memory
and durable) and the contact store. -/
structure MailerState where
  ledger : LedgerState
  recruiters : List Recruiter
deriving DecidableEq, Repr

/-- Decidable equality for `Except`, needed to evaluate concrete send
outcomes. -/
instance {ε α : Type} [DecidableEq ε] [DecidableEq α] : DecidableEq (Except ε α) := fun x y =>
  match x, y with
  | .ok a, .ok b => if h : a = b then .isTrue (by rw [h]) else .isFalse (by simp [h])
  | .ok _, .error _ => .isFalse (by simp)
  | .error _, .ok _ => .isFalse (by simp)
  | .error e, .error f => if h : e = f then .isTrue (by rw [h]) else .isFalse (by simp [h])

/-- Result of one `Mailer.send_email` call: the state after the call, whether
the message was actually handed to the SMTP server, and the returned pair or
raised exception. -/
structure SendOutcome where
  state : MailerState
  transmitted : Bool
  result : Except MailError (Bool × String)
deriving DecidableEq, Repr

/-- `Mailer.send_email`.  Collaborator effects are passed in as outcome
parameters: `renderResult` is what `TemplateEngine.render` returns or raises,
`smtp` the SMTP session outcome, `saveOutcome` the ledger write outcome
(see `record_sent`).  The source order is kept: rate gate, render, dry-run
return, credentials check, SMTP session, `record_sent`, `mark_sent`. -/
def send_email (cfg : MailerConfig) (st : MailerState) (r : Recruiter)
    (template_name : String) (renderResult : Except String (String × String))
    (dry_run : Bool) (smtp : SmtpResult) (saveOutcome : Option String)
    (now : Int) : SendOutcome :=
  match check_rate_limit cfg.rate_limit st.ledger.mem now with
  | .error m => ⟨st, false, .error (.rateLimit m)⟩
  | .ok () =>
    match renderResult with
    | .error m => ⟨st, false, .error (.templateError m)⟩
    | .ok (subject, body) =>
      if dry_run then
        ⟨st, false,
          .ok (true, "DRY RUN - Would send:\n" ++ render_preview r.email subject body)⟩
      else if cfg.gmail_email = "" ∨ cfg.gmail_app_password = "" then
        ⟨st, false,
          .error (.emailError
            "Gmail credentials not configured. Set GMAIL_EMAIL and GMAIL_APP_PASSWORD in .env")⟩
      else
        match smtp with
        | .authFailed =>
            ⟨st, false, .error (.smtpConnection "Authentication failed. Check your credentials.")⟩
        | .recipientsRefused =>
            ⟨st, false, .error (.emailError ("Recipient refused: " ++ r.email))⟩
        | .smtpError m =>
            ⟨st, false, .error (.emailError ("SMTP error: " ++ m))⟩
        | .otherError m =>
            ⟨st, false, .error (.emailError ("Failed to send email: " ++ m))⟩
        | .delivered =>
            let saved := record_sent st.ledger now r.id r.email template_name subject saveOutcome
            match saved.2 with
            | .error m =>
                ⟨{ st with ledger := saved.1 }, true,
                  .error (.emailError ("Failed to send email: " ++ m))⟩
            | .ok () =>
                ⟨{ ledger := saved.1, recruiters := mark_sent st.recruiters r.id now }, true,
                  .ok (true, "Email sent successfully to " ++ r.email)⟩

/-- Per-contact collaborator outcomes for one iteration of the bulk loop
(render result, SMTP session outcome, ledger write outcome), indexed by the
contact's position in the pending snapshot. -/
structure ContactEnv where
  renderResult : Except String (String × String)
  smtp : SmtpResult
  saveOutcome : Option String

/-- Observable events of the bulk loop, in execution order: the progress
callback invocation, a `send_email` dispatch, and a `time.sleep`. -/
inductive BulkEvent where
  | progress : Nat → Nat → String → BulkEvent
  | dispatch : String → BulkEvent
  | sleep : Nat → BulkEvent
deriving DecidableEq, Repr

/-- `RateLimiter.wait_for_delay` as its event trace: sleeps for the
configured delay only when it is positive. -/
def wait_for_delay (delay : Nat) : List BulkEvent :=
  if 0 < delay then [.sleep delay] else []

/-- The `results` dict of `Mailer.send_to_all_pending`. -/
structure BulkResults where
  total : Nat
  sent : Nat
  failed : Nat
  skipped : Nat
  errors : List (String × String)
deriving DecidableEq, Repr

/-- The skip branch of the bulk loop: increment `skipped` and record the
`"Rate limit: <reason>"` entry. -/
def skipAcc (acc : BulkResults) (email reason : String) : BulkResults :=
  { acc with skipped := acc.skipped + 1,
             errors := acc.errors ++ [(email, "Rate limit: " ++ reason)] }

/-- The counter update after a dispatched `send_email`: a returned
`(True, _)` increments `sent`, a returned `(False, msg)` increments `failed`
and records the message, a raised exception increments `failed` and records
`str(e)`. -/
def dispatchAcc (acc : BulkResults) (email : String) :
    Except MailError (Bool × String) → BulkResults
  | .ok (true, _) => { acc with sent := acc.sent + 1 }
  | .ok (false, m) =>
      { acc with failed := acc.failed + 1, errors := acc.errors ++ [(email, m)] }
  | .error e =>
      { acc with failed := acc.failed + 1, errors := acc.errors ++ [(email, e.message)] }

/-- The inter-message pacing of the bulk loop: `wait_for_delay` runs after a
dispatched contact exactly when not a dry run and the contact is not the last
of the pending snapshot. -/
def delayEvents (dry_run : Bool) (i total delay : Nat) : List BulkEvent :=
  if dry_run = false ∧ i < total - 1 then wait_for_delay delay else []

/-- The `for i, recruiter in enumerate(pending)` loop of
`Mailer.send_to_all_pending`: progress callback first, then the `can_send`
gate (skip and continue when disallowed), then the dispatched `send_email`
with its try/except counter update, then the conditional inter-message
delay. -/
def sendLoop (cfg : MailerConfig) (template_name : String) (dry_run : Bool)
    (now : Int) (env : Nat → ContactEnv) (total : Nat) :
    List Recruiter → Nat → MailerState → BulkResults →
    BulkResults × MailerState × List BulkEvent
  | [], _, st, acc => (acc, st, [])
  | r :: rest, i, st, acc =>
    match can_send cfg.rate_limit st.ledger.mem now with
    | (false, reason) =>
        let out := sendLoop cfg template_name dry_run now env total rest (i + 1) st
          (skipAcc acc r.email reason)
        (out.1, out.2.1, BulkEvent.progress (i + 1) total r.email :: out.2.2)
    | (true, _) =>
        let so := send_email cfg st r template_name (env i).renderResult dry_run
          (env i).smtp (env i).saveOutcome now
        let out := sendLoop cfg template_name dry_run now env total rest (i + 1) so.state
          (dispatchAcc acc r.email so.result)
        (out.1, out.2.1,
          BulkEvent.progress (i + 1) total r.email :: BulkEvent.dispatch r.email ::
            (delayEvents dry_run i total cfg.rate_limit.delay_between_emails ++ out.2.2))

/-- `Mailer.send_to_all_pending`: resolve the template name, snapshot the
pending contacts, initialise the counters and run the loop. -/
def send_to_all_pending (cfg : MailerConfig) (st : MailerState)
    (template_name : Option String) (dry_run : Bool) (now : Int)
    (env : Nat → ContactEnv) : BulkResults × MailerState × List BulkEvent :=
  let tname := template_name.getD cfg.default_template
  let pending := get_pending st.recruiters
  sendLoop cfg tname dry_run now env pending.length pending 0 st
    { total := pending.length, sent := 0, failed := 0, skipped := 0, errors := [] }

/-- Substring occurrence used to state the preview-content claims. -/
def strContains (s sub : String) : Prop := ∃ a b : String, s = a ++ sub ++ b

/-- The in-memory sequence after a batch of successful appends is the old
sequence followed by the batch, in order. -/
theorem record_all_mem (records : List SentRecord) :
    ∀ st : LedgerState, (record_all st records).mem = st.mem ++ records := by
  induction records with
  | nil => intro st; simp [record_all]
  | cons r rs ih =>
      intro st
      simp [record_all, record_sent, ih]

/-- After a nonempty batch of successful appends the durable file holds the
full final sequence. -/
theorem record_all_disk (records : List SentRecord) :
    ∀ st : LedgerState, records ≠ [] →
      (record_all st records).disk = save_sent_log (st.mem ++ records) := by
  induction records with
  | nil => intro st h; exact absurd rfl h
  | cons r rs ih =>
      intro st _
      cases rs with
      | nil => simp [record_all, record_sent, save_sent_log]
      | cons r2 rs2 =>
          have h2 := ih
            (record_sent st r.timestamp r.recruiter_id r.email r.template r.subject none).1
            (by simp)
          simp only [record_all] at h2 ⊢
          rw [h2]
          simp [record_sent]

/-- C8: persisting the ledger and then reloading it yields the same records
in the same order — `load_sent_log` after `save_sent_log` is the identity on
the sequence, and a nonempty batch of `record_sent` appends followed by a
reload returns exactly the old sequence extended by the batch. -/
theorem ledger_save_load_round_trip :
    (∀ mem : List SentRecord, load_sent_log (save_sent_log mem) = mem) ∧
    (∀ (st : LedgerState) (records : List SentRecord),
        (record_all st records).mem = st.mem ++ records ∧
        (records ≠ [] →
          load_sent_log (record_all st records).disk = st.mem ++ records)) := by
  refine ⟨fun mem => rfl, fun st records => ⟨record_all_mem records st, fun h => ?_⟩⟩
  rw [record_all_disk records st h]
  rfl

/-- C8 witness: two concrete records appended to an empty ledger round-trip
through the durable file unchanged. -/
theorem ledger_save_load_round_trip_witness :
    ([⟨5, "r1", "a@x.com", "t", "s1"⟩, ⟨9, "r2", "b@x.com", "t", "s2"⟩] : List SentRecord) ≠ [] ∧
    load_sent_log (record_all ⟨[], .absent⟩
        [⟨5, "r1", "a@x.com", "t", "s1"⟩, ⟨9, "r2", "b@x.com", "t", "s2"⟩]).disk =
      [⟨5, "r1", "a@x.com", "t", "s1"⟩, ⟨9, "r2", "b@x.com", "t", "s2"⟩] :=
  ⟨by decide,
    (ledger_save_load_round_trip.2 ⟨[], .absent⟩
        [⟨5, "r1", "a@x.com", "t", "s1"⟩, ⟨9, "r2", "b@x.com", "t", "s2"⟩]).2 (by decide)⟩

/-- C9: `record_sent` appends exactly one record at the end of the in-memory
sequence and then persists the full sequence; when the write raises, the
in-memory sequence still reflects the append while the call reports the
error. -/
theorem record_sent_appends_then_persists (st : LedgerState) (now : Int)
    (rid email tmpl subj : String) :
    ((record_sent st now rid email tmpl subj none).1.mem
        = st.mem ++ [⟨now, rid, email, tmpl, subj⟩]) ∧
    ((record_sent st now rid email tmpl subj none).1.disk
        = save_sent_log (st.mem ++ [⟨now, rid, email, tmpl, subj⟩])) ∧
    ((record_sent st now rid email tmpl subj none).2 = .ok ()) ∧
    (∀ msg : String,
      (record_sent st now rid email tmpl subj (some msg)).1.mem
          = st.mem ++ [⟨now, rid, email, tmpl, subj⟩] ∧
      (record_sent st now rid email tmpl subj (some msg)).2 = .error msg) :=
  ⟨rfl, rfl, rfl, fun _ => ⟨rfl, rfl⟩⟩

/-- C10: an unreadable ledger file, or a parsed document without the
`sent_emails` key, silently loads as the empty sequence, so both window
counts are 0 and, for positive configured limits (the defaults are 20 per
hour and 100 per day), `can_send` answers `(true, "OK")`. -/
theorem corrupt_ledger_loads_empty (f : LedgerFile)
    (hf : f = .unreadable ∨ f = .parsed none) :
    load_sent_log f = [] ∧
    (∀ now : Int, get_emails_today (load_sent_log f) now = 0 ∧
        get_emails_last_hour (load_sent_log f) now = 0) ∧
    (∀ (cfg : RateLimitSettings) (now : Int),
        0 < cfg.max_emails_per_day → 0 < cfg.emails_per_hour →
        can_send cfg (load_sent_log f) now = (true, "OK")) := by
  have hload : load_sent_log f = [] := by
    rcases hf with h | h <;> rw [h] <;> rfl
  refine ⟨hload, fun now => ?_, fun cfg now hd hh => ?_⟩
  · rw [hload]
    exact ⟨rfl, rfl⟩
  · rw [hload]
    have h1 : ¬ get_emails_today [] now ≥ cfg.max_emails_per_day := by
      simp [get_emails_today]
      omega
    have h2 : ¬ get_emails_last_hour [] now ≥ cfg.emails_per_hour := by
      simp [get_emails_last_hour, get_emails_in_window]
      omega
    simp [can_send, h1, h2]

/-- C10 witness: with the default limits, an unreadable file loads as empty
and `can_send` allows. -/
theorem corrupt_ledger_loads_empty_witness :
    load_sent_log .unreadable = [] ∧
    can_send ⟨20, 30, 100⟩ (load_sent_log .unreadable) 0 = (true, "OK") :=
  ⟨(corrupt_ledger_loads_empty .unreadable (Or.inl rfl)).1,
   (corrupt_ledger_loads_empty .unreadable (Or.inl rfl)).2.2 ⟨20, 30, 100⟩ 0
     (by decide) (by decide)⟩

/-- C1: `can_send` refuses with the daily-limit reason exactly when today's
calendar-date count reaches the daily limit, otherwise refuses with the
hourly-limit reason exactly when the trailing-hour count reaches the hourly
limit, otherwise allows; the daily check takes priority and the reason
strings have the exact quoted forms.  With `emails_per_hour = 20` and
exactly 20 records timestamped `now` the answer is
`(false, "Hourly limit reached (20/20)")`, and with `max_emails_per_day = 5`,
`emails_per_hour = 100` and 5 records today the daily reason wins. -/
theorem can_send_limit_priority_and_format :
    (∀ (cfg : RateLimitSettings) (log : List SentRecord) (now : Int),
      can_send cfg log now =
        if (log.filter fun e => dateOf e.timestamp = dateOf now).length ≥
            cfg.max_emails_per_day then
          (false, "Daily limit reached ("
            ++ toString (log.filter fun e => dateOf e.timestamp = dateOf now).length
            ++ "/" ++ toString cfg.max_emails_per_day ++ ")")
        else if (log.filter fun e => now - 3600 < e.timestamp).length ≥
            cfg.emails_per_hour then
          (false, "Hourly limit reached ("
            ++ toString (log.filter fun e => now - 3600 < e.timestamp).length
            ++ "/" ++ toString cfg.emails_per_hour ++ ")")
        else
          (true, "OK")) ∧
    can_send ⟨20, 30, 1000⟩ (List.replicate 20 ⟨1000000, "r", "x@y.com", "t", "s"⟩) 1000000
      = (false, "Hourly limit reached (20/20)") ∧
    can_send ⟨100, 30, 5⟩ (List.replicate 5 ⟨1000000, "r", "x@y.com", "t", "s"⟩) 1000000
      = (false, "Daily limit reached (5/5)") :=
  ⟨fun cfg log now => rfl, by decide, by decide⟩

/-- C3: `get_wait_time` returns the seconds until the next local midnight
when the daily limit is reached; otherwise, when the hourly limit is
reached, it returns the instant the oldest in-window record ages out minus
`now`, floored at 0; otherwise 0.  When only the hourly window is exhausted
and no record is timestamped in the future, the value lies in `[0, 3600]`. -/
theorem get_wait_time_value_and_bound :
    (∀ (cfg : RateLimitSettings) (log : List SentRecord) (now : Int),
      (get_emails_today log now ≥ cfg.max_emails_per_day →
        get_wait_time cfg log now = dateOf now * 86400 + 86400 - now) ∧
      (¬ get_emails_today log now ≥ cfg.max_emails_per_day →
       get_emails_last_hour log now ≥ cfg.emails_per_hour →
        get_wait_time cfg log now =
          max 0 ((((get_emails_in_window log now 3600).map fun e => e.timestamp).min?.getD now)
            + 3600 - now)) ∧
      (¬ get_emails_today log now ≥ cfg.max_emails_per_day →
       ¬ get_emails_last_hour log now ≥ cfg.emails_per_hour →
        get_wait_time cfg log now = 0)) ∧
    (∀ (cfg : RateLimitSettings) (log : List SentRecord) (now : Int),
      ¬ get_emails_today log now ≥ cfg.max_emails_per_day →
      get_emails_last_hour log now ≥ cfg.emails_per_hour →
      (∀ e ∈ log, e.timestamp ≤ now) →
      0 ≤ get_wait_time cfg log now ∧ get_wait_time cfg log now ≤ 3600) := by
  constructor
  · intro cfg log now
    refine ⟨fun h => by simp [get_wait_time, h],
            fun h1 h2 => by simp [get_wait_time, h1, h2],
            fun h1 h2 => by simp [get_wait_time, h1, h2]⟩
  · intro cfg log now h1 h2 hts
    have heq : get_wait_time cfg log now =
        max 0 ((((get_emails_in_window log now 3600).map fun e => e.timestamp).min?.getD now)
          + 3600 - now) := by
      simp [get_wait_time, h1, h2]
    rw [heq]
    rcases hm : ((get_emails_in_window log now 3600).map fun e => e.timestamp).min? with _ | a
    · rw [hm]
      simp only [Option.getD_none]
      constructor
      · exact le_max_left _ _
      · refine max_le (by norm_num) ?_
        omega
    · have ha := List.min?_mem (fun x y : Int => min_choice x y) hm
      obtain ⟨e, he, hts_eq⟩ := List.mem_map.1 ha
      have he2 : e ∈ log := by
        have := he
        simp only [get_emails_in_window] at this
        exact List.mem_of_mem_filter this
      have hle : e.timestamp ≤ now := hts e he2
      rw [hm]
      simp only [Option.getD_some]
      constructor
      · exact le_max_left _ _
      · refine max_le (by norm_num) ?_
        omega

/-- C3 witness: hourly limit 1, daily limit 100, a single record timestamped
`now = 0`: only the hourly window is exhausted, and the wait is 3600
seconds, inside `[0, 3600]`. -/
theorem get_wait_time_value_and_bound_witness :
    ¬ get_emails_today [⟨0, "r", "a@x.com", "t", "s"⟩] 0 ≥ (100 : Nat) ∧
    get_emails_last_hour [⟨0, "r", "a@x.com", "t", "s"⟩] 0 ≥ (1 : Nat) ∧
    0 ≤ get_wait_time ⟨1, 30, 100⟩ [⟨0, "r", "a@x.com", "t", "s"⟩] 0 ∧
    get_wait_time ⟨1, 30, 100⟩ [⟨0, "r", "a@x.com", "t", "s"⟩] 0 ≤ 3600 :=
  ⟨by decide, by decide,
    (get_wait_time_value_and_bound.2 ⟨1, 30, 100⟩ [⟨0, "r", "a@x.com", "t", "s"⟩] 0
      (by decide) (by decide) (by decide)).1,
    (get_wait_time_value_and_bound.2 ⟨1, 30, 100⟩ [⟨0, "r", "a@x.com", "t", "s"⟩] 0
      (by decide) (by decide) (by decide)).2⟩

/-- When `can_send` allows, the hard gate returns without raising. -/
theorem check_rate_limit_ok (cfg : RateLimitSettings) (log : List SentRecord) (now : Int)
    (h : (can_send cfg log now).1 = true) :
    check_rate_limit cfg log now = .ok () := by
  unfold check_rate_limit
  have hp : can_send cfg log now = (true, (can_send cfg log now).2) := by
    rw [← h]
  rw [hp]

/-- Any prefixed preview contains the recipient address verbatim. -/
theorem preview_contains_email (pre email subject body : String) :
    strContains (pre ++ render_preview email subject body) email :=
  ⟨pre ++ previewSep ++ "\nTo: ",
   "\nSubject: " ++ subject ++ "\n" ++ previewSep ++ "\n\n" ++ body ++ "\n\n" ++ previewSep,
   by simp [render_preview, String.append_assoc]⟩

/-- Any prefixed preview contains the rendered subject verbatim. -/
theorem preview_contains_subject (pre email subject body : String) :
    strContains (pre ++ render_preview email subject body) subject :=
  ⟨pre ++ previewSep ++ "\nTo: " ++ email ++ "\nSubject: ",
   "\n" ++ previewSep ++ "\n\n" ++ body ++ "\n\n" ++ previewSep,
   by simp [render_preview, String.append_assoc]⟩

/-- C6: a dry-run `send_email` that passes the rate gate and renders
successfully leaves the state untouched (no ledger write, no status change),
transmits nothing regardless of what the SMTP session or the ledger write
would have done, and returns success with a preview containing the
recipient's address and the rendered subject. -/
theorem dry_run_is_pure_preview (cfg : MailerConfig) (st : MailerState) (r : Recruiter)
    (tname subject body : String) (smtp : SmtpResult) (saveOutcome : Option String)
    (now : Int)
    (hgate : (can_send cfg.rate_limit st.ledger.mem now).1 = true) :
    (send_email cfg st r tname (.ok (subject, body)) true smtp saveOutcome now).state = st ∧
    (send_email cfg st r tname (.ok (subject, body)) true smtp saveOutcome now).transmitted
      = false ∧
    (send_email cfg st r tname (.ok (subject, body)) true smtp saveOutcome now).result =
      .ok (true, "DRY RUN - Would send:\n" ++ render_preview r.email subject body) ∧
    strContains ("DRY RUN - Would send:\n" ++ render_preview r.email subject body) r.email ∧
    strContains ("DRY RUN - Would send:\n" ++ render_preview r.email subject body) subject := by
  have hok := check_rate_limit_ok cfg.rate_limit st.ledger.mem now hgate
  exact ⟨by simp [send_email, hok], by simp [send_email, hok], by simp [send_email, hok],
    preview_contains_email "DRY RUN - Would send:\n" r.email subject body,
    preview_contains_subject "DRY RUN - Would send:\n" r.email subject body⟩

/-- C6 witness: contact `a@b.com`, template `default`, empty ledger: the
dry run leaves the state unchanged and its preview names the recipient. -/
theorem dry_run_is_pure_preview_witness :
    (can_send ⟨20, 30, 100⟩ ([] : List SentRecord) 0).1 = true ∧
    (send_email ⟨⟨20, 30, 100⟩, "me@g.com", "pw", "default"⟩
        ⟨⟨[], .absent⟩, [⟨"r1", "a@b.com", "pending", none⟩]⟩
        ⟨"r1", "a@b.com", "pending", none⟩ "default"
        (.ok ("Hello Sub", "Body")) true .delivered none 0).state
      = ⟨⟨[], .absent⟩, [⟨"r1", "a@b.com", "pending", none⟩]⟩ ∧
    strContains ("DRY RUN - Would send:\n" ++ render_preview "a@b.com" "Hello Sub" "Body")
      "a@b.com" :=
  ⟨by decide,
   (dry_run_is_pure_preview ⟨⟨20, 30, 100⟩, "me@g.com", "pw", "default"⟩
      ⟨⟨[], .absent⟩, [⟨"r1", "a@b.com", "pending", none⟩]⟩
      ⟨"r1", "a@b.com", "pending", none⟩ "default" "Hello Sub" "Body"
      .delivered none 0 (by decide)).1,
   (dry_run_is_pure_preview ⟨⟨20, 30, 100⟩, "me@g.com", "pw", "default"⟩
      ⟨⟨[], .absent⟩, [⟨"r1", "a@b.com", "pending", none⟩]⟩
      ⟨"r1", "a@b.com", "pending", none⟩ "default" "Hello Sub" "Body"
      .delivered none 0 (by decide)).2.2.2.1⟩

/-- C2 counterexample: a non-dry-run send whose SMTP transmission succeeds
but whose ledger write then raises.  The message was transmitted, yet the
durable ledger file and the contact's status and `last_contacted` are
unchanged and the call raises `EmailError` — so the three side effects do
not occur only together: transmission happened independently. -/
theorem send_success_persist_failure_breaks_atomicity :
    (send_email ⟨⟨20, 30, 100⟩, "me@x.com", "pw", "default"⟩
        ⟨⟨[], .absent⟩, [⟨"r1", "bob@x.com", "pending", none⟩]⟩
        ⟨"r1", "bob@x.com", "pending", none⟩ "default" (.ok ("S", "B")) false
        .delivered (some "disk full") 0).transmitted = true ∧
    (send_email ⟨⟨20, 30, 100⟩, "me@x.com", "pw", "default"⟩
        ⟨⟨[], .absent⟩, [⟨"r1", "bob@x.com", "pending", none⟩]⟩
        ⟨"r1", "bob@x.com", "pending", none⟩ "default" (.ok ("S", "B")) false
        .delivered (some "disk full") 0).state.recruiters
      = [⟨"r1", "bob@x.com", "pending", none⟩] ∧
    (send_email ⟨⟨20, 30, 100⟩, "me@x.com", "pw", "default"⟩
        ⟨⟨[], .absent⟩, [⟨"r1", "bob@x.com", "pending", none⟩]⟩
        ⟨"r1", "bob@x.com", "pending", none⟩ "default" (.ok ("S", "B")) false
        .delivered (some "disk full") 0).state.ledger.disk = .absent ∧
    (send_email ⟨⟨20, 30, 100⟩, "me@x.com", "pw", "default"⟩
        ⟨⟨[], .absent⟩, [⟨"r1", "bob@x.com", "pending", none⟩]⟩
        ⟨"r1", "bob@x.com", "pending", none⟩ "default" (.ok ("S", "B")) false
        .delivered (some "disk full") 0).result
      = .error (.emailError "Failed to send email: disk full") := by
  decide

/-- C2 (amended): for a non-dry-run `send_email` past the rate gate, a
successful render and configured credentials: each declared transmission
failure kind leaves the whole state exactly as before the attempt with
nothing transmitted and no ledger or contact write; when transmission and
the ledger write both succeed, the ledger append (memory and durable file)
and the combined status/`last_contacted` update happen together; but when
the ledger write fails after a successful transmission, the transmission has
occurred while the durable file and the contact stay unchanged (only the
in-memory append remains), so the three effects are atomic only up to
ledger-persistence failures. -/
theorem send_email_effect_cases (cfg : MailerConfig) (st : MailerState) (r : Recruiter)
    (tname subject body : String) (now : Int)
    (hgate : (can_send cfg.rate_limit st.ledger.mem now).1 = true)
    (hemail : ¬ cfg.gmail_email = "") (hpw : ¬ cfg.gmail_app_password = "") :
    (∀ sv, send_email cfg st r tname (.ok (subject, body)) false .authFailed sv now =
      ⟨st, false, .error (.smtpConnection "Authentication failed. Check your credentials.")⟩) ∧
    (∀ sv, send_email cfg st r tname (.ok (subject, body)) false .recipientsRefused sv now =
      ⟨st, false, .error (.emailError ("Recipient refused: " ++ r.email))⟩) ∧
    (∀ sv m, send_email cfg st r tname (.ok (subject, body)) false (.smtpError m) sv now =
      ⟨st, false, .error (.emailError ("SMTP error: " ++ m))⟩) ∧
    (∀ sv m, send_email cfg st r tname (.ok (subject, body)) false (.otherError m) sv now =
      ⟨st, false, .error (.emailError ("Failed to send email: " ++ m))⟩) ∧
    (send_email cfg st r tname (.ok (subject, body)) false .delivered none now =
      ⟨⟨⟨st.ledger.mem ++ [⟨now, r.id, r.email, tname, subject⟩],
          save_sent_log (st.ledger.mem ++ [⟨now, r.id, r.email, tname, subject⟩])⟩,
        mark_sent st.recruiters r.id now⟩, true,
       .ok (true, "Email sent successfully to " ++ r.email)⟩) ∧
    (∀ m, send_email cfg st r tname (.ok (subject, body)) false .delivered (some m) now =
      ⟨⟨⟨st.ledger.mem ++ [⟨now, r.id, r.email, tname, subject⟩], st.ledger.disk⟩,
        st.recruiters⟩, true,
       .error (.emailError ("Failed to send email: " ++ m))⟩) := by
  have hok := check_rate_limit_ok cfg.rate_limit st.ledger.mem now hgate
  refine ⟨fun sv => ?_, fun sv => ?_, fun sv m => ?_, fun sv m => ?_, ?_, fun m => ?_⟩ <;>
    simp [send_email, hok, hemail, hpw, record_sent]

/-- C2 witness: concrete success path — transmission, durable ledger append
and contact update happen together. -/
theorem send_email_effect_cases_witness :
    (can_send ⟨20, 30, 100⟩ ([] : List SentRecord) 0).1 = true ∧
    ¬ "me@x.com" = "" ∧ ¬ "pw" = "" ∧
    send_email ⟨⟨20, 30, 100⟩, "me@x.com", "pw", "default"⟩
        ⟨⟨[], .absent⟩, [⟨"r1", "bob@x.com", "pending", none⟩]⟩
        ⟨"r1", "bob@x.com", "pending", none⟩ "default" (.ok ("S", "B")) false
        .delivered none 0 =
      ⟨⟨⟨[⟨0, "r1", "bob@x.com", "default", "S"⟩],
          save_sent_log [⟨0, "r1", "bob@x.com", "default", "S"⟩]⟩,
        [⟨"r1", "bob@x.com", "sent", some 0⟩]⟩, true,
       .ok (true, "Email sent successfully to bob@x.com")⟩ :=
  ⟨by decide, by decide, by decide,
   (send_email_effect_cases ⟨⟨20, 30, 100⟩, "me@x.com", "pw", "default"⟩
      ⟨⟨[], .absent⟩, [⟨"r1", "bob@x.com", "pending", none⟩]⟩
      ⟨"r1", "bob@x.com", "pending", none⟩ "default" "S" "B" 0
      (by decide) (by decide) (by decide)).2.2.2.2.1⟩

/-- Unfolding of one denied iteration of the bulk loop. -/
theorem sendLoop_skip_step (cfg : MailerConfig) (tname : String) (dry_run : Bool)
    (now : Int) (env : Nat → ContactEnv) (total : Nat) (r : Recruiter)
    (rest : List Recruiter) (i : Nat) (st : MailerState) (acc : BulkResults)
    (reason : String)
    (h : can_send cfg.rate_limit st.ledger.mem now = (false, reason)) :
    sendLoop cfg tname dry_run now env total (r :: rest) i st acc =
      ((sendLoop cfg tname dry_run now env total rest (i + 1) st
          (skipAcc acc r.email reason)).1,
       (sendLoop cfg tname dry_run now env total rest (i + 1) st
          (skipAcc acc r.email reason)).2.1,
       BulkEvent.progress (i + 1) total r.email ::
         (sendLoop cfg tname dry_run now env total rest (i + 1) st
            (skipAcc acc r.email reason)).2.2) := by
  simp only [sendLoop]
  rw [h]

/-- Unfolding of one dispatched iteration of the bulk loop. -/
theorem sendLoop_dispatch_step (cfg : MailerConfig) (tname : String) (dry_run : Bool)
    (now : Int) (env : Nat → ContactEnv) (total : Nat) (r : Recruiter)
    (rest : List Recruiter) (i : Nat) (st : MailerState) (acc : BulkResults)
    (s : String)
    (h : can_send cfg.rate_limit st.ledger.mem now = (true, s)) :
    sendLoop cfg tname dry_run now env total (r :: rest) i st acc =
      ((sendLoop cfg tname dry_run now env total rest (i + 1)
          (send_email cfg st r tname (env i).renderResult dry_run (env i).smtp
            (env i).saveOutcome now).state
          (dispatchAcc acc r.email
            (send_email cfg st r tname (env i).renderResult dry_run (env i).smtp
              (env i).saveOutcome now).result)).1,
       (sendLoop cfg tname dry_run now env total rest (i + 1)
          (send_email cfg st r tname (env i).renderResult dry_run (env i).smtp
            (env i).saveOutcome now).state
          (dispatchAcc acc r.email
            (send_email cfg st r tname (env i).renderResult dry_run (env i).smtp
              (env i).saveOutcome now).result)).2.1,
       BulkEvent.progress (i + 1) total r.email :: BulkEvent.dispatch r.email ::
         (delayEvents dry_run i total cfg.rate_limit.delay_between_emails ++
          (sendLoop cfg tname dry_run now env total rest (i + 1)
            (send_email cfg st r tname (env i).renderResult dry_run (env i).smtp
              (env i).saveOutcome now).state
            (dispatchAcc acc r.email
              (send_email cfg st r tname (env i).renderResult dry_run (env i).smtp
                (env i).saveOutcome now).result)).2.2)) := by
  simp only [sendLoop]
  rw [h]

/-- A skipped contact adds one to `skipped` and keeps `sent`, `failed` and
`total`. -/
theorem skipAcc_fields (acc : BulkResults) (email reason : String) :
    (skipAcc acc email reason).sent = acc.sent ∧
    (skipAcc acc email reason).failed = acc.failed ∧
    (skipAcc acc email reason).skipped = acc.skipped + 1 ∧
    (skipAcc acc email reason).total = acc.total :=
  ⟨rfl, rfl, rfl, rfl⟩

/-- A dispatched contact adds exactly one across `sent` and `failed`. -/
theorem dispatchAcc_sum (acc : BulkResults) (email : String)
    (res : Except MailError (Bool × String)) :
    (dispatchAcc acc email res).sent + (dispatchAcc acc email res).failed +
      (dispatchAcc acc email res).skipped
      = acc.sent + acc.failed + acc.skipped + 1 := by
  cases res with
  | ok v =>
      rcases v with ⟨b, m⟩
      cases b <;> simp [dispatchAcc] <;> omega
  | error e => simp [dispatchAcc]; omega

/-- A dispatched contact keeps `total`. -/
theorem dispatchAcc_total (acc : BulkResults) (email : String)
    (res : Except MailError (Bool × String)) :
    (dispatchAcc acc email res).total = acc.total := by
  cases res with
  | ok v =>
      rcases v with ⟨b, m⟩
      cases b <;> rfl
  | error e => rfl

/-- The bulk loop adds exactly its list length across the three counters. -/
theorem sendLoop_sum (cfg : MailerConfig) (tname : String) (dry_run : Bool)
    (now : Int) (env : Nat → ContactEnv) (total : Nat) :
    ∀ (l : List Recruiter) (i : Nat) (st : MailerState) (acc : BulkResults),
      (sendLoop cfg tname dry_run now env total l i st acc).1.sent +
      (sendLoop cfg tname dry_run now env total l i st acc).1.failed +
      (sendLoop cfg tname dry_run now env total l i st acc).1.skipped =
      acc.sent + acc.failed + acc.skipped + l.length := by
  intro l
  induction l with
  | nil => intro i st acc; simp [sendLoop]
  | cons r rest ih =>
      intro i st acc
      rcases hcs : can_send cfg.rate_limit st.ledger.mem now with ⟨b, s⟩
      cases b
      · rw [sendLoop_skip_step cfg tname dry_run now env total r rest i st acc s hcs]
        have h1 := ih (i + 1) st (skipAcc acc r.email s)
        simp [skipAcc] at h1 ⊢
        omega
      · rw [sendLoop_dispatch_step cfg tname dry_run now env total r rest i st acc s hcs]
        have h1 := ih (i + 1)
          (send_email cfg st r tname (env i).renderResult dry_run (env i).smtp
            (env i).saveOutcome now).state
          (dispatchAcc acc r.email
            (send_email cfg st r tname (env i).renderResult dry_run (env i).smtp
              (env i).saveOutcome now).result)
        have h2 := dispatchAcc_sum acc r.email
          (send_email cfg st r tname (env i).renderResult dry_run (env i).smtp
            (env i).saveOutcome now).result
        simp only [List.length_cons]
        omega

/-- The bulk loop never changes the `total` field of the summary. -/
theorem sendLoop_total (cfg : MailerConfig) (tname : String) (dry_run : Bool)
    (now : Int) (env : Nat → ContactEnv) (total : Nat) :
    ∀ (l : List Recruiter) (i : Nat) (st : MailerState) (acc : BulkResults),
      (sendLoop cfg tname dry_run now env total l i st acc).1.total = acc.total := by
  intro l
  induction l with
  | nil => intro i st acc; simp [sendLoop]
  | cons r rest ih =>
      intro i st acc
      rcases hcs : can_send cfg.rate_limit st.ledger.mem now with ⟨b, s⟩
      cases b
      · rw [sendLoop_skip_step cfg tname dry_run now env total r rest i st acc s hcs]
        rw [ih (i + 1) st (skipAcc acc r.email s)]
        exact (skipAcc_fields acc r.email s).2.2.2
      · rw [sendLoop_dispatch_step cfg tname dry_run now env total r rest i st acc s hcs]
        rw [ih (i + 1)
          (send_email cfg st r tname (env i).renderResult dry_run (env i).smtp
            (env i).saveOutcome now).state
          (dispatchAcc acc r.email
            (send_email cfg st r tname (env i).renderResult dry_run (env i).smtp
              (env i).saveOutcome now).result)]
        exact dispatchAcc_total acc r.email _

/-- C4: when the Governor disallows during the bulk loop, the iteration
emits only the progress callback (no dispatch, no delay), increments
`skipped`, appends the `"Rate limit: <reason>"` entry for the contact's
email and continues with the remaining contacts on an unchanged state.
Concretely, with hourly limit 1 and three pending contacts the run gives
`sent=1, skipped=2, failed=0` with the two matching error entries, and the
trace shows a dispatch only for the first contact. -/
theorem bulk_skip_path :
    (∀ (cfg : MailerConfig) (tname : String) (dry_run : Bool) (now : Int)
        (env : Nat → ContactEnv) (total : Nat) (r : Recruiter)
        (rest : List Recruiter) (i : Nat) (st : MailerState) (acc : BulkResults)
        (reason : String),
      can_send cfg.rate_limit st.ledger.mem now = (false, reason) →
      sendLoop cfg tname dry_run now env total (r :: rest) i st acc =
        ((sendLoop cfg tname dry_run now env total rest (i + 1) st
            { acc with skipped := acc.skipped + 1,
                       errors := acc.errors ++ [(r.email, "Rate limit: " ++ reason)] }).1,
         (sendLoop cfg tname dry_run now env total rest (i + 1) st
            { acc with skipped := acc.skipped + 1,
                       errors := acc.errors ++ [(r.email, "Rate limit: " ++ reason)] }).2.1,
         BulkEvent.progress (i + 1) total r.email ::
           (sendLoop cfg tname dry_run now env total rest (i + 1) st
              { acc with skipped := acc.skipped + 1,
                         errors := acc.errors ++ [(r.email, "Rate limit: " ++ reason)] }).2.2)) ∧
    (send_to_all_pending ⟨⟨1, 0, 100⟩, "me@x.com", "pw", "default"⟩
        ⟨⟨[], .absent⟩,
          [⟨"r1", "a@x.com", "pending", none⟩, ⟨"r2", "b@x.com", "pending", none⟩,
           ⟨"r3", "c@x.com", "pending", none⟩]⟩
        none false 0 (fun _ => ⟨.ok ("S", "B"), .delivered, none⟩)).1
      = ⟨3, 1, 0, 2,
          [("b@x.com", "Rate limit: Hourly limit reached (1/1)"),
           ("c@x.com", "Rate limit: Hourly limit reached (1/1)")]⟩ ∧
    (send_to_all_pending ⟨⟨1, 0, 100⟩, "me@x.com", "pw", "default"⟩
        ⟨⟨[], .absent⟩,
          [⟨"r1", "a@x.com", "pending", none⟩, ⟨"r2", "b@x.com", "pending", none⟩,
           ⟨"r3", "c@x.com", "pending", none⟩]⟩
        none false 0 (fun _ => ⟨.ok ("S", "B"), .delivered, none⟩)).2.2
      = [.progress 1 3 "a@x.com", .dispatch "a@x.com",
         .progress 2 3 "b@x.com", .progress 3 3 "c@x.com"] := by
  refine ⟨fun cfg tname dry_run now env total r rest i st acc reason h => ?_,
    by decide, by decide⟩
  exact sendLoop_skip_step cfg tname dry_run now env total r rest i st acc reason h

/-- C4 witness: one bulk-loop step on a ledger already holding one record
with hourly limit 1 skips the contact: only a progress event, `skipped`
incremented, the rate-limit entry recorded, state unchanged. -/
theorem bulk_skip_path_witness :
    can_send ⟨1, 0, 100⟩ [⟨0, "r1", "a@x.com", "default", "S"⟩] 0
      = (false, "Hourly limit reached (1/1)") ∧
    sendLoop ⟨⟨1, 0, 100⟩, "me@x.com", "pw", "default"⟩ "default" false 0
        (fun _ => ⟨.ok ("S", "B"), .delivered, none⟩) 3
        [⟨"r2", "b@x.com", "pending", none⟩, ⟨"r3", "c@x.com", "pending", none⟩] 1
        ⟨⟨[⟨0, "r1", "a@x.com", "default", "S"⟩], .absent⟩, []⟩ ⟨3, 1, 0, 0, []⟩
      = (⟨3, 1, 0, 2,
          [("b@x.com", "Rate limit: Hourly limit reached (1/1)"),
           ("c@x.com", "Rate limit: Hourly limit reached (1/1)")]⟩,
         ⟨⟨[⟨0, "r1", "a@x.com", "default", "S"⟩], .absent⟩, []⟩,
         [.progress 2 3 "b@x.com", .progress 3 3 "c@x.com"]) :=
  ⟨by decide,
   bulk_skip_path.1 ⟨⟨1, 0, 100⟩, "me@x.com", "pw", "default"⟩ "default" false 0
     (fun _ => ⟨.ok ("S", "B"), .delivered, none⟩) 3
     ⟨"r2", "b@x.com", "pending", none⟩ [⟨"r3", "c@x.com", "pending", none⟩] 1
     ⟨⟨[⟨0, "r1", "a@x.com", "default", "S"⟩], .absent⟩, []⟩ ⟨3, 1, 0, 0, []⟩
     "Hourly limit reached (1/1)" (by decide)⟩

/-- C5: every enumerated pending contact increments exactly one of `sent`,
`failed`, `skipped`, so the summary satisfies
`sent + failed + skipped = total` with `total` the pending count at call
time; and a per-contact failure does not abort the loop — with contact
2 of 3 refused, contacts 1 and 3 are still dispatched and the summary is
`sent=2, failed=1`. -/
theorem bulk_counters_partition :
    (∀ (cfg : MailerConfig) (st : MailerState) (tname : Option String)
        (dry_run : Bool) (now : Int) (env : Nat → ContactEnv),
      (send_to_all_pending cfg st tname dry_run now env).1.total
        = (get_pending st.recruiters).length ∧
      (send_to_all_pending cfg st tname dry_run now env).1.sent +
      (send_to_all_pending cfg st tname dry_run now env).1.failed +
      (send_to_all_pending cfg st tname dry_run now env).1.skipped
        = (send_to_all_pending cfg st tname dry_run now env).1.total) ∧
    (send_to_all_pending ⟨⟨20, 0, 100⟩, "me@x.com", "pw", "default"⟩
        ⟨⟨[], .absent⟩,
          [⟨"r1", "a@x.com", "pending", none⟩, ⟨"r2", "b@x.com", "pending", none⟩,
           ⟨"r3", "c@x.com", "pending", none⟩]⟩
        none false 0
        (fun i => if i = 1 then ⟨.ok ("S", "B"), .recipientsRefused, none⟩
                  else ⟨.ok ("S", "B"), .delivered, none⟩)).1
      = ⟨3, 2, 1, 0, [("b@x.com", "Recipient refused: b@x.com")]⟩ ∧
    (send_to_all_pending ⟨⟨20, 0, 100⟩, "me@x.com", "pw", "default"⟩
        ⟨⟨[], .absent⟩,
          [⟨"r1", "a@x.com", "pending", none⟩, ⟨"r2", "b@x.com", "pending", none⟩,
           ⟨"r3", "c@x.com", "pending", none⟩]⟩
        none false 0
        (fun i => if i = 1 then ⟨.ok ("S", "B"), .recipientsRefused, none⟩
                  else ⟨.ok ("S", "B"), .delivered, none⟩)).2.2
      = [.progress 1 3 "a@x.com", .dispatch "a@x.com",
         .progress 2 3 "b@x.com", .dispatch "b@x.com",
         .progress 3 3 "c@x.com", .dispatch "c@x.com"] := by
  refine ⟨fun cfg st tname dry_run now env => ⟨?_, ?_⟩, by decide, by decide⟩
  · simp only [send_to_all_pending]
    rw [sendLoop_total]
  · simp only [send_to_all_pending]
    rw [sendLoop_total, sendLoop_sum]
    simp

/-- C7: `wait_for_delay` with a configured delay of 0 is a no-op and with a
positive delay sleeps exactly once for that delay; in the bulk loop the
sleep trace follows a dispatched contact exactly when the run is not a dry
run and the contact is not the last pending one, and a skipped contact is
followed by no sleep at all. -/
theorem bulk_delay_application :
    wait_for_delay 0 = [] ∧
    (∀ d : Nat, 0 < d → wait_for_delay d = [BulkEvent.sleep d]) ∧
    (∀ (cfg : MailerConfig) (tname : String) (dry_run : Bool) (now : Int)
        (env : Nat → ContactEnv) (total : Nat) (r : Recruiter)
        (rest : List Recruiter) (i : Nat) (st : MailerState) (acc : BulkResults)
        (s : String),
      can_send cfg.rate_limit st.ledger.mem now = (true, s) →
      (sendLoop cfg tname dry_run now env total (r :: rest) i st acc).2.2 =
        BulkEvent.progress (i + 1) total r.email :: BulkEvent.dispatch r.email ::
          ((if dry_run = false ∧ i < total - 1
              then wait_for_delay cfg.rate_limit.delay_between_emails else []) ++
           (sendLoop cfg tname dry_run now env total rest (i + 1)
              (send_email cfg st r tname (env i).renderResult dry_run (env i).smtp
                (env i).saveOutcome now).state
              (dispatchAcc acc r.email
                (send_email cfg st r tname (env i).renderResult dry_run (env i).smtp
                  (env i).saveOutcome now).result)).2.2)) ∧
    (∀ (cfg : MailerConfig) (tname : String) (dry_run : Bool) (now : Int)
        (env : Nat → ContactEnv) (total : Nat) (r : Recruiter)
        (rest : List Recruiter) (i : Nat) (st : MailerState) (acc : BulkResults)
        (reason : String),
      can_send cfg.rate_limit st.ledger.mem now = (false, reason) →
      (sendLoop cfg tname dry_run now env total (r :: rest) i st acc).2.2 =
        BulkEvent.progress (i + 1) total r.email ::
          (sendLoop cfg tname dry_run now env total rest (i + 1) st
            (skipAcc acc r.email reason)).2.2) := by
  refine ⟨rfl, fun d hd => ?_, ?_, ?_⟩
  · simp [wait_for_delay, hd]
  · intro cfg tname dry_run now env total r rest i st acc s h
    rw [sendLoop_dispatch_step cfg tname dry_run now env total r rest i st acc s h]
    rfl
  · intro cfg tname dry_run now env total r rest i st acc reason h
    rw [sendLoop_skip_step cfg tname dry_run now env total r rest i st acc reason h]

/-- C7 witness: two pending contacts, delay 30, not a dry run: the sleep
follows the first dispatched contact and not the last one. -/
theorem bulk_delay_application_witness :
    can_send ⟨20, 30, 100⟩ ([] : List SentRecord) 0 = (true, "OK") ∧
    (sendLoop ⟨⟨20, 30, 100⟩, "me@x.com", "pw", "default"⟩ "default" false 0
        (fun _ => ⟨.ok ("S", "B"), .delivered, none⟩) 2
        [⟨"r1", "a@x.com", "pending", none⟩, ⟨"r2", "b@x.com", "pending", none⟩] 0
        ⟨⟨[], .absent⟩, []⟩ ⟨2, 0, 0, 0, []⟩).2.2
      = [.progress 1 2 "a@x.com", .dispatch "a@x.com", .sleep 30,
         .progress 2 2 "b@x.com", .dispatch "b@x.com"] :=
  ⟨by decide,
   by
    rw [bulk_delay_application.2.2.1 ⟨⟨20, 30, 100⟩, "me@x.com", "pw", "default"⟩
      "default" false 0 (fun _ => ⟨.ok ("S", "B"), .delivered, none⟩) 2
      ⟨"r1", "a@x.com", "pending", none⟩ [⟨"r2", "b@x.com", "pending", none⟩] 0
      ⟨⟨[], .absent⟩, []⟩ ⟨2, 0, 0, 0, []⟩ "OK" (by decide)]
    decide⟩
